import Mathlib

/-
Verification of the netbox-component-synchronization plugin.

This file is a shallow embedding of the plugin's computational core:
the natural-name sort keys and diff algorithm of `utils.py`, the comparison
record equality of `comparison.py`, the bulk synchronization handlers of
`utils.py`, the asynchronous processing bridge and success-message builder of
`async_utils.py`, and the registry lookup / auto-discovery control flow of
`component_registry.py` and `auto_discovery.py`.  Django ORM querysets are
modelled as Lean lists of records; Python dictionaries keyed by strings are
modelled as association lists; Python `set` construction is modelled as
first-occurrence deduplication with respect to the record equality in force
(CPython keeps the first of two equal elements inserted into a set).
-/

set_option maxRecDepth 4000

namespace CompSync
/-! ## Natural sort keys (`utils.py`: `split`, `natural_keys`, `human_sorted`)

`split` iterates `re.findall(r"(\d*)(\D*)", s)`: the regex decomposes the
string into alternating (possibly empty) digit / non-digit runs and ends with
one empty match at the end of the string. -/

/-- Numeric value of a digit run: `int(x or "0")`. -/
def digitsToNat (ds : List Char) : Nat :=
  ds.foldl (fun n c => n * 10 + (c.toNat - 48)) 0

/-- Decompose a character list into its maximal runs, tagging each run with
whether it consists of digits.  Adjacent runs always have opposite tags. -/
def runs : List Char → List (Bool × List Char)
  | [] => []
  | c :: cs =>
    match runs cs with
    | (b, r) :: rest =>
      if b = c.isDigit then (b, c :: r) :: rest
      else (c.isDigit, [c]) :: (b, r) :: rest
    | [] => [(c.isDigit, [c])]

/-- Turn the alternating runs into the key pairs yielded by `split`.  Each
regex match of `(\d*)(\D*)` consumes one (possibly empty) digit run and one
(possibly empty) non-digit run and contributes the pair
`("", int(digits or "0"))` followed by the pair `(nondigits, 0)`; the
trailing empty match at the end of the string contributes `("", 0), ("", 0)`. -/
def pairsOfRuns : List (Bool × List Char) → List (String × Nat)
  | [] => [("", 0), ("", 0)]
  | (true, ds) :: (false, ns) :: rest =>
    ("", digitsToNat ds) :: (String.mk ns, 0) :: pairsOfRuns rest
  | (true, ds) :: rest =>
    ("", digitsToNat ds) :: ("", 0) :: pairsOfRuns rest
  | (false, ns) :: rest =>
    ("", 0) :: (String.mk ns, 0) :: pairsOfRuns rest

/-- Embedding of `split` from `utils.py`: iterate
`re.findall(r"(\d*)(\D*)", s)` over the maximal digit / non-digit runs. -/
def splitRuns (cs : List Char) : List (String × Nat) :=
  pairsOfRuns (runs cs)

/-- Embedding of `natural_keys` from `utils.py` (the tuple it returns is
modelled as a list of pairs). -/
def naturalKeys (s : String) : List (String × Nat) :=
  splitRuns s.data

/-! ### Comparison of natural keys

Python compares the key tuples lexicographically: pairs are compared
component-wise (strings by code point, then numbers), and a proper prefix
sorts first.  We embed this as three-way comparisons. -/

/-- Three-way comparison of naturals. -/
def natCmp (m n : Nat) : Ordering :=
  if m < n then .lt else if n < m then .gt else .eq

/-- Three-way comparison of characters by code point. -/
def charCmp (c d : Char) : Ordering :=
  natCmp c.toNat d.toNat

/-- Lexicographic three-way comparison of lists. -/
def listCmp (cmp : α → α → Ordering) : List α → List α → Ordering
  | [], [] => .eq
  | [], _ :: _ => .lt
  | _ :: _, [] => .gt
  | x :: xs, y :: ys =>
    match cmp x y with
    | .eq => listCmp cmp xs ys
    | o => o

/-- Three-way comparison of strings by code point. -/
def strCmp (s t : String) : Ordering :=
  listCmp charCmp s.data t.data

/-- Three-way comparison of `(text, number)` key components, as Python
compares the pairs produced by `split`. -/
def pairCmp (p q : String × Nat) : Ordering :=
  match strCmp p.1 q.1 with
  | .eq => natCmp p.2 q.2
  | o => o

/-- Three-way comparison of whole natural keys. -/
def keyCmp (a b : List (String × Nat)) : Ordering :=
  listCmp pairCmp a b

/-- The non-strict order induced by `keyCmp`. -/
def keyLe (a b : List (String × Nat)) : Prop :=
  keyCmp a b ≠ Ordering.gt

instance keyLe.decidable : DecidableRel keyLe :=
  fun _ _ => instDecidableNot

/-! ### Order-theoretic facts about the key comparison -/

/-- Swapping the arguments of a comparison flips the result. -/
def CmpSwap (cmp : α → α → Ordering) : Prop :=
  ∀ a b, cmp a b = (cmp b a).swap

/-- Strict-less transitivity of a comparison. -/
def CmpLtTrans (cmp : α → α → Ordering) : Prop :=
  ∀ a b c, cmp a b = .lt → cmp b c = .lt → cmp a c = .lt

/-- Comparison-equal elements are interchangeable as first argument. -/
def CmpEqSubst (cmp : α → α → Ordering) : Prop :=
  ∀ a b, cmp a b = .eq → ∀ c, cmp a c = cmp b c

/-! ### Sorting (`human_sorted`, and the `.sort(key=...)` call in
`get_components`) -/

/-- The pullback of the natural-key order along a name projection: Python
`sorted` / `list.sort` with `key=lambda o: natural_keys(...)`. -/
def sortByKey (key : α → String) (l : List α) : List α :=
  List.insertionSort (fun a b => keyLe (naturalKeys (key a)) (naturalKeys (key b))) l

/-- Embedding of `human_sorted` from `utils.py`. -/
def human_sorted (l : List String) : List String :=
  sortByKey (fun s => s) l

/-! ## Comparison records (`comparison.py`)

Each frozen dataclass is embedded as a structure and its `__eq__` as a
Bool-valued function parameterized by the `compare_description` plugin
configuration flag (read from `settings.PLUGINS_CONFIG` in the source).
The `NotImplemented` branches of `_compare_attributes` concern cross-type
comparisons only; between two records of the same kind every compared
attribute exists, which is the only way `__eq__` is exercised in the diff
and sync paths embedded below. -/

/-- Body of `ParentComparison._compare_attributes`: name and label always
compare, the kind-specific extra attribute comparisons are folded into
`extras`, and description participates exactly when `compare_description`
is set. -/
def compareAttributes (compare_description : Bool)
    (name1 label1 desc1 name2 label2 desc2 : String) (extras : Bool) : Bool :=
  let eq := ((name1 == name2) && (label1 == label2)) && extras
  if compare_description then eq && (desc1 == desc2) else eq

/-- Embedding of `InterfaceComparison` of `comparison.py`. -/
structure InterfaceComparison where
  id : Nat
  name : String
  label : String
  description : String
  type : String
  type_display : String
  enabled : Bool
  mgmt_only : Bool := false
  poe_mode : String := ""
  poe_type : String := ""
  rf_role : String := ""
  is_template : Bool := false
deriving DecidableEq

/-- Embedding of `InterfaceComparison.__eq__`: extra attributes
`(type, enabled, mgmt_only, poe_mode, poe_type, rf_role)`. -/
def InterfaceComparison.beq (cfg : Bool) (a b : InterfaceComparison) : Bool :=
  compareAttributes cfg a.name a.label a.description b.name b.label b.description
    ((((((a.type == b.type) && (a.enabled == b.enabled)) &&
      (a.mgmt_only == b.mgmt_only)) && (a.poe_mode == b.poe_mode)) &&
      (a.poe_type == b.poe_type)) && (a.rf_role == b.rf_role))

/-- Embedding of `FrontPortComparison` of `comparison.py`. -/
structure FrontPortComparison where
  id : Nat
  name : String
  label : String
  description : String
  type : String
  type_display : String
  color : String
  rear_port_position : Nat
  is_template : Bool := false
deriving DecidableEq

/-- Embedding of `FrontPortComparison.__eq__`: extra attributes
`(type, color, rear_port_position)`. -/
def FrontPortComparison.beq (cfg : Bool) (a b : FrontPortComparison) : Bool :=
  compareAttributes cfg a.name a.label a.description b.name b.label b.description
    (((a.type == b.type) && (a.color == b.color)) &&
      (a.rear_port_position == b.rear_port_position))

/-- Embedding of `RearPortComparison` of `comparison.py`. -/
structure RearPortComparison where
  id : Nat
  name : String
  label : String
  description : String
  type : String
  type_display : String
  color : String
  positions : Nat
  is_template : Bool := false
deriving DecidableEq

/-- Embedding of `RearPortComparison.__eq__`: extra attributes `(type, color, positions)`. -/
def RearPortComparison.beq (cfg : Bool) (a b : RearPortComparison) : Bool :=
  compareAttributes cfg a.name a.label a.description b.name b.label b.description
    (((a.type == b.type) && (a.color == b.color)) && (a.positions == b.positions))

/-- Embedding of `ConsolePortComparison` of `comparison.py` (inherits
`ParentTypedComparison.__eq__`). -/
structure ConsolePortComparison where
  id : Nat
  name : String
  label : String
  description : String
  type : String
  type_display : String
  is_template : Bool := false
deriving DecidableEq

/-- Embedding of `ParentTypedComparison.__eq__` for `ConsolePortComparison`: extra
attribute `(type,)`. -/
def ConsolePortComparison.beq (cfg : Bool) (a b : ConsolePortComparison) : Bool :=
  compareAttributes cfg a.name a.label a.description b.name b.label b.description
    (a.type == b.type)

/-- Embedding of `ConsoleServerPortComparison` of `comparison.py` (inherits
`ParentTypedComparison.__eq__`). -/
structure ConsoleServerPortComparison where
  id : Nat
  name : String
  label : String
  description : String
  type : String
  type_display : String
  is_template : Bool := false
deriving DecidableEq

/-- Embedding of `ParentTypedComparison.__eq__` for `ConsoleServerPortComparison`: extra
attribute `(type,)`. -/
def ConsoleServerPortComparison.beq (cfg : Bool)
    (a b : ConsoleServerPortComparison) : Bool :=
  compareAttributes cfg a.name a.label a.description b.name b.label b.description
    (a.type == b.type)

/-- Embedding of `PowerPortComparison` of `comparison.py`. -/
structure PowerPortComparison where
  id : Nat
  name : String
  label : String
  description : String
  type : String
  type_display : String
  maximum_draw : String
  allocated_draw : String
  is_template : Bool := false
deriving DecidableEq

/-- Embedding of `PowerPortComparison.__eq__`: extra attributes
`(type, maximum_draw, allocated_draw)`. -/
def PowerPortComparison.beq (cfg : Bool) (a b : PowerPortComparison) : Bool :=
  compareAttributes cfg a.name a.label a.description b.name b.label b.description
    (((a.type == b.type) && (a.maximum_draw == b.maximum_draw)) &&
      (a.allocated_draw == b.allocated_draw))

/-- Embedding of `PowerOutletComparison` of `comparison.py`. -/
structure PowerOutletComparison where
  id : Nat
  name : String
  label : String
  description : String
  type : String
  type_display : String
  power_port_name : String
  feed_leg : String
  is_template : Bool := false
deriving DecidableEq

/-- Embedding of `PowerOutletComparison.__eq__`: extra attributes
`(type, power_port_name, feed_leg)`. -/
def PowerOutletComparison.beq (cfg : Bool) (a b : PowerOutletComparison) : Bool :=
  compareAttributes cfg a.name a.label a.description b.name b.label b.description
    (((a.type == b.type) && (a.power_port_name == b.power_port_name)) &&
      (a.feed_leg == b.feed_leg))

/-- Embedding of `DeviceBayComparison` of `comparison.py` (inherits
`ParentComparison.__eq__`). -/
structure DeviceBayComparison where
  id : Nat
  name : String
  label : String
  description : String
  is_template : Bool := false
deriving DecidableEq

/-- Embedding of `ParentComparison.__eq__` for `DeviceBayComparison`: no extra
attributes. -/
def DeviceBayComparison.beq (cfg : Bool) (a b : DeviceBayComparison) : Bool :=
  compareAttributes cfg a.name a.label a.description b.name b.label b.description
    true

/-- Embedding of `ModuleBayComparison` of `comparison.py`. -/
structure ModuleBayComparison where
  id : Nat
  name : String
  label : String
  description : String
  position : String
  is_template : Bool := false
deriving DecidableEq

/-- Embedding of `ModuleBayComparison.__eq__`: extra attribute `(position,)`. -/
def ModuleBayComparison.beq (cfg : Bool) (a b : ModuleBayComparison) : Bool :=
  compareAttributes cfg a.name a.label a.description b.name b.label b.description
    (a.position == b.position)

/-! ## Diff read path (`utils.py`: `get_components`)

The function is generic in the comparison-record kind: `eqb` is the kind's
`__eq__` and `name` its name attribute.  Only the computation of
`comparison_items` and `sync_stats` is embedded; the trailing
`render(...)` call and the `show_sync_status` toggle are presentation. -/

/-- The `sync_stats` counters of `get_components`. -/
structure SyncStatusStats where
  in_sync : Nat
  name_mismatch : Nat
  missing_from_device : Nat
  missing_from_template : Nat
deriving DecidableEq

/-- A Python `set(...)` built from a list: keep the first element of each
equality class, in insertion order. -/
def pySet (eqb : α → α → Bool) (l : List α) : List α :=
  l.foldl (fun acc y => if acc.any (fun x => eqb x y) then acc else acc ++ [y]) []

/-- One row of `comparison_items`: the matching template-side record, the
matching component-side record, and the sync status string. -/
abbrev DiffRow (α : Type) := Option α × Option α × String

/-- Result of the diff read path. -/
structure DiffResult (α : Type) where
  rows : List (DiffRow α)
  stats : SyncStatusStats
deriving DecidableEq

/-- The status classification of `get_components` (both sides present and
names equal, both present and names different, template only, component
only). -/
def syncStatusOf (name : α → String) : Option α → Option α → String
  | some t, some c => if name t = name c then "in_sync" else "name_mismatch"
  | some _, none => "missing_from_device"
  | none, some _ => "missing_from_template"
  | none, none => "unknown"

/-- Embedding of `get_components` from `utils.py`: union the template and
component record lists as a Python set (templates first), sort by the
natural key of the record name, and for each union member `i` look up the
first template equal to `i` and the first component equal to `i`
(`list.index` compares with `==`; a `ValueError` becomes `none`), classify
the row, and count rows per status. -/
def get_components (eqb : α → α → Bool) (name : α → String)
    (unified_components unified_component_templates : List α) : DiffResult α :=
  let overall :=
    sortByKey name (pySet eqb (unified_component_templates ++ unified_components))
  let rows := overall.map (fun i =>
    let template := unified_component_templates.find? (fun y => eqb y i)
    let component := unified_components.find? (fun y => eqb y i)
    (template, component, syncStatusOf name template component))
  let statuses := rows.map (fun r => r.2.2)
  { rows := rows
    stats :=
      { in_sync := statuses.count "in_sync"
        name_mismatch := statuses.count "name_mismatch"
        missing_from_device := statuses.count "missing_from_device"
        missing_from_template := statuses.count "missing_from_template" } }

/-! ## Bulk synchronization handlers (`utils.py`)

`handle_bulk_add_missing` and `handle_bulk_remove_out_of_sync` work on the
stored rows, not on comparison records.  A stored component or template row
is modelled with the attributes common to every kind; the device linkage is
implicit (every list below belongs to one device and one kind), and the
querysets are modelled as lists. -/

/-- A stored component or component-template row as the bulk handlers see it
(`.values()` / attribute access). -/
structure DbRecord where
  id : Nat
  name : String
  label : String
  description : String
deriving DecidableEq

/-- The component `handle_bulk_add_missing` builds from a template row:
every field is copied except `id` (and except `description` when
`compare_description` is disabled, in which case the fresh record keeps the
storage default, the empty string).  The database id assigned on insert is
modelled as 0. -/
def createFromTemplate (compare_description : Bool) (t : DbRecord) : DbRecord :=
  { id := 0, name := t.name, label := t.label,
    description := if compare_description then t.description else "" }

/-- Embedding of `handle_bulk_add_missing` from `utils.py`: every template
whose name is not among the existing component names is instantiated (the
bulk-create versus per-item save split is a storage detail; both paths
count their creations).  Returns the resulting component list and the
`created` counter. -/
def handle_bulk_add_missing (compare_description : Bool)
    (components component_templates : List DbRecord) : List DbRecord × Nat :=
  let existing_component_names := components.map (fun c => c.name)
  let templates_to_add := component_templates.filter
    (fun t => !(existing_component_names.contains t.name))
  (components ++ templates_to_add.map (createFromTemplate compare_description),
    templates_to_add.length)

/-- Embedding of `handle_bulk_remove_out_of_sync` from `utils.py`: every
device component whose name appears in no template is deleted.  Returns the
remaining component list and the `deleted` counter. -/
def handle_bulk_remove_out_of_sync
    (components component_templates : List DbRecord) : List DbRecord × Nat :=
  let template_names := component_templates.map (fun t => t.name)
  (components.filter (fun c => template_names.contains c.name),
    (components.filter (fun c => !(template_names.contains c.name))).length)

/-! ## Success message builder (`async_utils.py`: `create_success_message`) -/

/-- The `ComponentProcessor.stats` record.  The Python dict it embeds is
created with keys in the order `created, updated, deleted, fixed`, and
`dict.items()` iterates in that insertion order. -/
structure OperationStats where
  created : Nat
  updated : Nat
  deleted : Nat
  fixed : Nat
deriving DecidableEq

/-- Python `str.capitalize()`: the first character upper-cased and every
following character lower-cased (these messages are ASCII). -/
def pyCapitalize (s : String) : String :=
  match s.data with
  | [] => ""
  | c :: cs => String.mk (c.toUpper :: cs.map Char.toLower)

/-- Python `sep.join(parts)`. -/
def joinSep (sep : String) : List String → String
  | [] => ""
  | [x] => x
  | x :: y :: xs => x ++ sep ++ joinSep sep (y :: xs)

/-- One `"<operation> <count> <kind>"` clause. -/
def msgClause (operation : String) (count : Nat) (component_type : String) :
    String :=
  operation ++ " " ++ toString count ++ " " ++ component_type

/-- Embedding of `create_success_message` from `async_utils.py`: one clause
per strictly positive counter, in the stats record's iteration order
(created, updated, deleted, fixed), joined with "; " and capitalized; when
every counter is zero, the fixed no-changes text. -/
def create_success_message (stats : OperationStats) (component_type : String) :
    String :=
  let msgs :=
    (if stats.created > 0 then [msgClause "created" stats.created component_type]
      else []) ++
    (if stats.updated > 0 then [msgClause "updated" stats.updated component_type]
      else []) ++
    (if stats.deleted > 0 then [msgClause "deleted" stats.deleted component_type]
      else []) ++
    (if stats.fixed > 0 then [msgClause "fixed" stats.fixed component_type]
      else [])
  if msgs.isEmpty then "No changes made to " ++ component_type
  else pyCapitalize (joinSep "; " msgs)

/-- Whether `needle` occurs as a contiguous run inside `hay`. -/
def infixOf (needle : List Char) : List Char → Bool
  | [] => needle.isEmpty
  | c :: cs => needle.isPrefixOf (c :: cs) || infixOf needle cs

/-- Substring containment on strings. -/
def containsSubstring (hay needle : String) : Bool :=
  infixOf needle.data hay.data

/-! ## Asynchronous processing bridge (`async_utils.py`)

`process_component_comparison` schedules the deletions task and the
additions task concurrently (`asyncio.gather`), awaits both, and only then
runs the name fixes.  The interleaving the event loop chooses for the two
gathered tasks is modelled by an explicit schedule (a list of booleans:
true takes the next deletion-task step, false the next additions-task
step); the persistence effects of the steps are modelled as an event
trace. -/

/-- An observable persistence event of one request: a deletion, an addition
(create or update driven by one selected template), or a name fix, each
tagged with the record id it touches. -/
inductive SyncEvent
  | deletion : Nat → SyncEvent
  | addition : Nat → SyncEvent
  | nameFix : Nat → SyncEvent
deriving DecidableEq

/-- Whether an event belongs to the name-fix step. -/
def SyncEvent.isFix : SyncEvent → Bool
  | nameFix _ => true
  | _ => false

/-- Embedding of `ComponentProcessor.process_deletions`: with no selected ids it returns
immediately; otherwise the components whose id is among `remove_ids` are
deleted and counted.  Returns the `deleted` counter and the deletion
events. -/
def process_deletions (remove_ids : List Nat) (components : List DbRecord) :
    Nat × List SyncEvent :=
  if remove_ids.isEmpty then (0, [])
  else
    ((components.filter (fun c => remove_ids.contains c.id)).length,
      (components.filter (fun c => remove_ids.contains c.id)).map
        (fun c => SyncEvent.deletion c.id))

/-- Embedding of `ComponentProcessor.process_additions`: with no selected
ids it returns immediately; otherwise each template whose id is among
`add_ids` (and whose name is non-empty — `_create_or_update_component`
skips falsy names) either updates and saves the same-named existing
component, counting it in `updated`, or builds a new in-memory component
that is then dropped: the guard `not hasattr(component, "pk")` at
async_utils.py line 54 is false for every Django model instance (`pk` is a
class-level property, present even before a first save), so the
new-component branch never queues anything for `bulk_create` or the
per-item ModuleBay save, no creation is persisted, and the `created`
counter stays 0.  Returns the `created` and `updated` counters and the
persistence events (one per saved update; dropped creations perform no
persistence). -/
def process_additions (add_ids : List Nat)
    (templates components : List DbRecord) : (Nat × Nat) × List SyncEvent :=
  if add_ids.isEmpty then ((0, 0), [])
  else
    let selected := (templates.filter (fun t => add_ids.contains t.id)).filter
      (fun t => !(t.name == ""))
    let updates := selected.filter
      (fun t => (components.map (fun c => c.name)).contains t.name)
    ((0, updates.length), updates.map (fun t => SyncEvent.addition t.id))

/-- Embedding of `ComponentProcessor.process_name_fixes`: each selected pair of a stored
component and its comparison record is renamed when the comparison's name
matches some template name and differs from the component's stored name.
Returns the `fixed` counter and the name-fix events. -/
def process_name_fixes (unified_components : List (DbRecord × String))
    (unified_templates : List DbRecord) : Nat × List SyncEvent :=
  let fixes := unified_components.filter (fun p =>
    (unified_templates.map (fun t => t.name)).contains p.2 && !(p.1.name == p.2))
  (fixes.length, fixes.map (fun p => SyncEvent.nameFix p.1.id))

/-- Interleave two event sequences under a schedule: `true` takes the next
event of the first sequence, `false` of the second; an exhausted schedule
or sequence flushes the rest in order. -/
def interleave : List Bool → List α → List α → List α
  | [], xs, ys => xs ++ ys
  | true :: s, xs, ys =>
    match xs with
    | [] => ys
    | x :: xs1 => x :: interleave s xs1 ys
  | false :: s, xs, ys =>
    match ys with
    | [] => xs
    | y :: ys1 => y :: interleave s xs ys1

/-- Embedding of `process_component_comparison` from `async_utils.py`: the
deletions and additions tasks run concurrently under the event loop's
schedule and are awaited together (`asyncio.gather`), then the name fixes
run; the accumulated statistics record is returned. -/
def process_component_comparison (schedule : List Bool)
    (remove_ids add_ids : List Nat) (components templates : List DbRecord)
    (unified_components : List (DbRecord × String))
    (unified_templates : List DbRecord) : List SyncEvent × OperationStats :=
  let del := process_deletions remove_ids components
  let add := process_additions add_ids templates components
  let fixes := process_name_fixes unified_components unified_templates
  (interleave schedule del.2 add.2 ++ fixes.2,
    { created := add.1.1, updated := add.1.2, deleted := del.1,
      fixed := fixes.1 })

/-! ## Component registry (`component_registry.py`)

The registry is a dict keyed by kind name; it is modelled as an association
list in insertion order.  Class references (`model`, `template_model`,
`comparison_class`) are modelled by their names; the `special_fields` dict
of derivation callables is modelled by its key list. -/

/-- Embedding of `ComponentConfig` of `component_registry.py`. -/
structure ComponentConfig where
  component_label : String
  model : String
  template_model : String
  comparison_class : String
  permissions : List String
  factory_fields : List String
  special_fields : List String
  custom_queryset_filter : Option String
deriving DecidableEq

/-- The static `COMPONENT_REGISTRY` table, transcribed entry by entry. -/
def COMPONENT_REGISTRY : List (String × ComponentConfig) :=
  [("interface",
    { component_label := "Interfaces", model := "Interface",
      template_model := "InterfaceTemplate",
      comparison_class := "InterfaceComparison",
      permissions := ["dcim.view_interface", "dcim.add_interface",
        "dcim.change_interface", "dcim.delete_interface"],
      factory_fields := ["id", "name", "label", "description", "type",
        "enabled", "mgmt_only", "poe_mode", "poe_type", "rf_role"],
      special_fields := ["type_display"],
      custom_queryset_filter := some "exclude_interface_type_list" }),
   ("powerport",
    { component_label := "Power ports", model := "PowerPort",
      template_model := "PowerPortTemplate",
      comparison_class := "PowerPortComparison",
      permissions := ["dcim.view_powerport", "dcim.add_powerport",
        "dcim.change_powerport", "dcim.delete_powerport"],
      factory_fields := ["id", "name", "label", "description", "type",
        "maximum_draw", "allocated_draw"],
      special_fields := ["type_display"],
      custom_queryset_filter := none }),
   ("consoleport",
    { component_label := "Console ports", model := "ConsolePort",
      template_model := "ConsolePortTemplate",
      comparison_class := "ConsolePortComparison",
      permissions := ["dcim.view_consoleport", "dcim.add_consoleport",
        "dcim.change_consoleport", "dcim.delete_consoleport"],
      factory_fields := ["id", "name", "label", "description", "type"],
      special_fields := ["type_display"],
      custom_queryset_filter := none }),
   ("consoleserverport",
    { component_label := "Console server ports", model := "ConsoleServerPort",
      template_model := "ConsoleServerPortTemplate",
      comparison_class := "ConsoleServerPortComparison",
      permissions := ["dcim.view_consoleserverport",
        "dcim.add_consoleserverport", "dcim.change_consoleserverport",
        "dcim.delete_consoleserverport"],
      factory_fields := ["id", "name", "label", "description", "type"],
      special_fields := ["type_display"],
      custom_queryset_filter := none }),
   ("poweroutlet",
    { component_label := "Power outlets", model := "PowerOutlet",
      template_model := "PowerOutletTemplate",
      comparison_class := "PowerOutletComparison",
      permissions := ["dcim.view_poweroutlet", "dcim.add_poweroutlet",
        "dcim.change_poweroutlet", "dcim.delete_poweroutlet"],
      factory_fields := ["id", "name", "label", "description", "type",
        "feed_leg"],
      special_fields := ["type_display", "power_port_name"],
      custom_queryset_filter := none }),
   ("frontport",
    { component_label := "Front ports", model := "FrontPort",
      template_model := "FrontPortTemplate",
      comparison_class := "FrontPortComparison",
      permissions := ["dcim.view_frontport", "dcim.add_frontport",
        "dcim.change_frontport", "dcim.delete_frontport"],
      factory_fields := ["id", "name", "label", "description", "type",
        "color", "rear_port_position"],
      special_fields := ["type_display"],
      custom_queryset_filter := none }),
   ("rearport",
    { component_label := "Rear ports", model := "RearPort",
      template_model := "RearPortTemplate",
      comparison_class := "RearPortComparison",
      permissions := ["dcim.view_rearport", "dcim.add_rearport",
        "dcim.change_rearport", "dcim.delete_rearport"],
      factory_fields := ["id", "name", "label", "description", "type",
        "color", "positions"],
      special_fields := ["type_display"],
      custom_queryset_filter := none }),
   ("devicebay",
    { component_label := "Device bays", model := "DeviceBay",
      template_model := "DeviceBayTemplate",
      comparison_class := "DeviceBayComparison",
      permissions := ["dcim.view_devicebay", "dcim.add_devicebay",
        "dcim.change_devicebay", "dcim.delete_devicebay"],
      factory_fields := ["id", "name", "label", "description"],
      special_fields := [],
      custom_queryset_filter := none }),
   ("modulebay",
    { component_label := "Module bays", model := "ModuleBay",
      template_model := "ModuleBayTemplate",
      comparison_class := "ModuleBayComparison",
      permissions := ["dcim.view_modulebay", "dcim.add_modulebay",
        "dcim.change_modulebay", "dcim.delete_modulebay"],
      factory_fields := ["id", "name", "label", "description", "position"],
      special_fields := [],
      custom_queryset_filter := none })]

/-- Embedding of `DiscoveredComponent` of `auto_discovery.py` (class references by
name, derivation callables by key). -/
structure DiscoveredComponent where
  name : String
  model : String
  template_model : String
  component_label : String
  factory_fields : List String
  permissions : List String
  special_fields : List String
  custom_queryset_filter : Option String
deriving DecidableEq

/-- The `ComponentConfig` that `_populate_registry_from_discovery` builds
from a discovered component; the comparison class is looked up (or
synthesized) under the name `<Model>Comparison` either way. -/
def configOfDiscovered (dc : DiscoveredComponent) : ComponentConfig :=
  { component_label := dc.component_label, model := dc.model,
    template_model := dc.template_model,
    comparison_class := dc.model ++ "Comparison",
    permissions := dc.permissions, factory_fields := dc.factory_fields,
    special_fields := dc.special_fields,
    custom_queryset_filter := dc.custom_queryset_filter }

/-- Embedding of `_populate_registry_from_discovery` from
`component_registry.py`: each discovered kind whose name is not already a
registry key is appended; existing entries are never replaced. -/
def populate_registry_from_discovery
    (reg : List (String × ComponentConfig))
    (discovered : List (String × DiscoveredComponent)) :
    List (String × ComponentConfig) :=
  discovered.foldl (fun acc p =>
    if (acc.find? (fun e => e.1 == p.1)).isSome then acc
    else acc ++ [(p.1, configOfDiscovered p.2)]) reg

/-- Embedding of `get_component_config` from `component_registry.py`:
discovery is attempted first (its output — empty when discovery is
disabled or failed — is the `discovered` argument), then the kind name is
looked up in the populated registry; an unknown name raises
`ValueError(f"Unknown component type: ...")`, modelled as `Except.error`. -/
def get_component_config (discovered : List (String × DiscoveredComponent))
    (component_type : String) : Except String ComponentConfig :=
  let reg := populate_registry_from_discovery COMPONENT_REGISTRY discovered
  match reg.find? (fun e => e.1 == component_type) with
  | some e => Except.ok e.2
  | none => Except.error ("Unknown component type: " ++ component_type)

/-! ## Auto-discovery engine (`auto_discovery.py`)

The host's `dcim` application is modelled as metadata records: each model
contributes its class name, whether it declares a relationship field
pointing at `Device`, whether it exposes a `get_type_display` accessor, and
the comparable field list that `_analyze_model_fields` derives from its
storage metadata (the Django field-type filtering itself is host
introspection and is taken as an input here; no settled claim depends on
it).  Locating the application (`apps.get_app_config("dcim")`) either
yields the model list or raises, modelled as an `Option`.  The settings
reads of `discovery_config.py` (`enabled`, `excluded_types`) never raise
and are re-read per pass; they appear as the environment. -/

/-- Metadata of one host model, as `ComponentDiscovery` inspects it. -/
structure ModelMeta where
  name : String
  hasDeviceFK : Bool
  hasTypeDisplay : Bool
  analyzed_fields : List String
deriving DecidableEq

/-- The process-wide settings that `discovery_config.config` re-reads on
every pass. -/
structure DiscoveryEnv where
  enabled : Bool
  excluded_types : List String
  dcim_models : Option (List ModelMeta)
deriving DecidableEq

/-- The mutable state of the global `ComponentDiscovery` instance.  A
Python empty dict is falsy, so an empty `discovered_components` means "no
cache". -/
structure DiscoveryState where
  discovered_components : List (String × DiscoveredComponent)
  discovery_in_progress : Bool
deriving DecidableEq

/-- The fixed `COMPONENT_TEMPLATE_MAPPING` table. -/
def COMPONENT_TEMPLATE_MAPPING : List (String × String) :=
  [("Interface", "InterfaceTemplate"), ("PowerPort", "PowerPortTemplate"),
   ("ConsolePort", "ConsolePortTemplate"),
   ("ConsoleServerPort", "ConsoleServerPortTemplate"),
   ("PowerOutlet", "PowerOutletTemplate"), ("FrontPort", "FrontPortTemplate"),
   ("RearPort", "RearPortTemplate"), ("DeviceBay", "DeviceBayTemplate"),
   ("ModuleBay", "ModuleBayTemplate")]

/-- ASCII lower-casing, as `str.lower()` behaves on these names. -/
def strToLower (s : String) : String :=
  String.mk (s.data.map Char.toLower)

/-- Embedding of `str.endswith` via character-list suffix test. -/
def strEndsWith (s suffix : String) : Bool :=
  suffix.data.isSuffixOf s.data

/-- Embedding of `ComponentDiscovery._is_component_model`: not a template model by
naming convention, and declaring a direct relationship to `Device`. -/
def is_component_model (m : ModelMeta) : Bool :=
  !(strEndsWith m.name "Template") && m.hasDeviceFK

/-- Embedding of `AutoDiscoveryConfig.is_component_excluded`: case-insensitive
membership in the excluded-types setting. -/
def is_component_excluded (excluded : List String) (component_name : String) :
    Bool :=
  (excluded.map strToLower).contains (strToLower component_name)

/-- Embedding of `ComponentDiscovery._get_template_model`: resolve the mapped template
model name against the host application's models; unmapped or unresolvable
names yield `none`. -/
def get_template_model (all_models : List ModelMeta)
    (component_name : String) : Option ModelMeta :=
  match COMPONENT_TEMPLATE_MAPPING.find? (fun e => e.1 == component_name) with
  | none => none
  | some e => all_models.find? (fun m => m.name == e.2)

/-- Insert a space before every upper-case character
(`re.sub(r"(?<!^)(?=[A-Z])", " ", name)` on the tail). -/
def camelSpaceAux : List Char → List Char
  | [] => []
  | c :: cs =>
    if c.isUpper then ' ' :: c :: camelSpaceAux cs else c :: camelSpaceAux cs

/-- Embedding of `ComponentDiscovery._generate_component_label`: split the camel-case
name on capital-letter boundaries, then apply the hard-coded pluralization
overrides, falling back to the lower-cased name plus "s". -/
def generate_component_label (model_name : String) : String :=
  let spaced :=
    match model_name.data with
    | [] => ""
    | c :: cs => String.mk (c :: camelSpaceAux cs)
  let label_map : List (String × String) :=
    [("Interface", "Interfaces"), ("Power Port", "Power ports"),
     ("Console Port", "Console ports"),
     ("Console Server Port", "Console server ports"),
     ("Power Outlet", "Power outlets"), ("Front Port", "Front ports"),
     ("Rear Port", "Rear ports"), ("Device Bay", "Device bays"),
     ("Module Bay", "Module bays")]
  match label_map.find? (fun e => e.1 == spaced) with
  | some e => e.2
  | none => strToLower spaced ++ "s"

/-- Embedding of `ComponentDiscovery._generate_permissions`: the four view/add/change/
delete permission strings over the lower-cased model name in the `dcim`
application. -/
def generate_permissions (model_name : String) : List String :=
  let lower := strToLower model_name
  ["dcim.view_" ++ lower, "dcim.add_" ++ lower, "dcim.change_" ++ lower,
   "dcim.delete_" ++ lower]

/-- Embedding of `ComponentDiscovery._generate_special_fields` (by key): `type_display`
when the model exposes a type-display accessor, `power_port_name` for the
model named PowerOutlet. -/
def generate_special_fields (m : ModelMeta) : List String :=
  (if m.hasTypeDisplay then ["type_display"] else []) ++
    (if m.name == "PowerOutlet" then ["power_port_name"] else [])

/-- The `DiscoveredComponent` built for one surviving candidate model. -/
def mkDiscovered (m tm : ModelMeta) : DiscoveredComponent :=
  { name := strToLower m.name, model := m.name, template_model := tm.name,
    component_label := generate_component_label m.name,
    factory_fields := m.analyzed_fields,
    permissions := generate_permissions m.name,
    special_fields := generate_special_fields m,
    custom_queryset_filter :=
      if strToLower m.name == "interface" then
        some "exclude_interface_type_list"
      else none }

/-- The discovery loop of `ComponentDiscovery.discover_components`: walk
the application's models, stop at the safety ceiling of 50 discovered
components, skip non-component models, configured exclusions, and models
without a resolvable template, and collect a `DiscoveredComponent` for the
rest.  Per-model exceptions are logged and skip the model. -/
def discover_loop (excluded : List String) (all_models : List ModelMeta) :
    List ModelMeta → Nat → List (String × DiscoveredComponent)
  | [], _ => []
  | m :: rest, processed =>
    if processed ≥ 50 then []
    else if is_component_model m then
      let component_name := strToLower m.name
      if is_component_excluded excluded component_name then
        discover_loop excluded all_models rest processed
      else
        match get_template_model all_models m.name with
        | none => discover_loop excluded all_models rest processed
        | some tm =>
          (component_name, mkDiscovered m tm) ::
            discover_loop excluded all_models rest (processed + 1)
    else discover_loop excluded all_models rest processed

/-- Embedding of `ComponentDiscovery.discover_components` from
`auto_discovery.py`.  The function never raises: a populated cache is
returned as is; a re-entrant call during a discovery in progress returns
the empty map; a disabled configuration returns the empty map; a failure
to locate the host application is logged and returns the empty map (the
in-progress flag having been set and reset); otherwise the loop runs and
its result is cached.  Returns the map and the new state. -/
def discover_components (env : DiscoveryEnv) (st : DiscoveryState) :
    List (String × DiscoveredComponent) × DiscoveryState :=
  if !st.discovered_components.isEmpty then (st.discovered_components, st)
  else if st.discovery_in_progress then ([], st)
  else if !env.enabled then ([], st)
  else
    match env.dcim_models with
    | none => ([], { st with discovery_in_progress := false })
    | some models =>
      let discovered := discover_loop env.excluded_types models models 0
      (discovered,
        { discovered_components := discovered, discovery_in_progress := false })

/-! ## Theorems -/

theorem ordSwapSwap : ∀ o : Ordering, o.swap.swap = o := by
  intro o; cases o <;> rfl

/-- Comparison-equal elements are interchangeable as second argument, given
swap and first-argument substitution. -/
theorem cmpEqSubstRight (cmp : α → α → Ordering)
    (hswap : CmpSwap cmp) (hsub : CmpEqSubst cmp)
    (a b : α) (hab : cmp a b = .eq) (c : α) : cmp c a = cmp c b := by
  have hba : cmp b a = .eq := by
    rw [hswap b a, hab]; rfl
  rw [hswap c a, hsub a b hab c, ← hswap c b]

theorem natCmp_eq_lt {a b : Nat} : natCmp a b = .lt ↔ a < b := by
  unfold natCmp
  split_ifs <;> simp_all

theorem natCmp_eq_gt {a b : Nat} : natCmp a b = .gt ↔ b < a := by
  unfold natCmp
  split_ifs <;> simp_all
  omega

theorem natCmp_eq_eq {a b : Nat} : natCmp a b = .eq ↔ a = b := by
  unfold natCmp
  split_ifs <;> simp_all <;> omega

theorem natCmp_swap : CmpSwap natCmp := by
  intro a b
  rcases Nat.lt_trichotomy a b with h | h | h
  · rw [natCmp_eq_lt.mpr h, natCmp_eq_gt.mpr h]; rfl
  · rw [natCmp_eq_eq.mpr h, natCmp_eq_eq.mpr h.symm]; rfl
  · rw [natCmp_eq_gt.mpr h, natCmp_eq_lt.mpr h]; rfl

theorem natCmp_lt_trans : CmpLtTrans natCmp := fun _ _ _ hab hbc =>
  natCmp_eq_lt.mpr (Nat.lt_trans (natCmp_eq_lt.mp hab) (natCmp_eq_lt.mp hbc))

theorem natCmp_eq_subst : CmpEqSubst natCmp := by
  intro a b hab c
  rw [natCmp_eq_eq.mp hab]

theorem charCmp_swap : CmpSwap charCmp := fun a b => natCmp_swap _ _

theorem charCmp_lt_trans : CmpLtTrans charCmp := fun a b c => natCmp_lt_trans _ _ _

theorem charCmp_eq_subst : CmpEqSubst charCmp := fun a b hab c =>
  natCmp_eq_subst _ _ hab _

theorem listCmp_swap (cmp : α → α → Ordering) (hs : CmpSwap cmp) :
    CmpSwap (listCmp cmp) := by
  intro a
  induction a with
  | nil => intro b; cases b <;> rfl
  | cons x xs ih =>
    intro b
    cases b with
    | nil => rfl
    | cons y ys =>
      simp only [listCmp]
      rw [hs x y]
      cases h : cmp y x <;> simp [Ordering.swap, ih ys]

theorem listCmp_eq_subst (cmp : α → α → Ordering) (hsub : CmpEqSubst cmp) :
    CmpEqSubst (listCmp cmp) := by
  intro a
  induction a with
  | nil =>
    intro b hab c
    cases b <;> simp_all [listCmp]
  | cons x xs ih =>
    intro b hab c
    cases b with
    | nil => simp [listCmp] at hab
    | cons y ys =>
      simp only [listCmp] at hab
      cases hxy : cmp x y with
      | lt => rw [hxy] at hab; simp at hab
      | gt => rw [hxy] at hab; simp at hab
      | eq =>
        rw [hxy] at hab
        simp only at hab
        cases c with
        | nil => simp [listCmp]
        | cons z zs =>
          simp only [listCmp, hsub x y hxy z, ih ys hab zs]

theorem listCmp_lt_trans (cmp : α → α → Ordering)
    (hlt : CmpLtTrans cmp) (hsub : CmpEqSubst cmp) (hs : CmpSwap cmp) :
    CmpLtTrans (listCmp cmp) := by
  intro a
  induction a with
  | nil =>
    intro b c hab hbc
    cases b <;> cases c <;> simp_all [listCmp]
  | cons x xs ih =>
    intro b c hab hbc
    cases b with
    | nil => simp [listCmp] at hab
    | cons y ys =>
      cases c with
      | nil => simp [listCmp] at hbc
      | cons z zs =>
        simp only [listCmp] at hab hbc ⊢
        cases hxy : cmp x y with
        | gt => rw [hxy] at hab; simp at hab
        | lt =>
          rw [hxy] at hab
          have hxz : cmp x z = Ordering.lt := by
            cases hyz : cmp y z with
            | gt => rw [hyz] at hbc; simp at hbc
            | lt => exact hlt x y z hxy hyz
            | eq =>
              have h := (cmpEqSubstRight cmp hs hsub y z hyz x).symm
              rw [h, hxy]
          rw [hxz]
        | eq =>
          rw [hxy] at hab
          simp only at hab
          rw [hsub x y hxy z]
          cases hyz : cmp y z with
          | gt => rw [hyz] at hbc; simp at hbc
          | lt => rfl
          | eq =>
            rw [hyz] at hbc
            simp only at hbc
            exact ih ys zs hab hbc

theorem strCmp_swap (s t : String) : strCmp s t = (strCmp t s).swap :=
  listCmp_swap charCmp charCmp_swap s.data t.data

theorem strCmp_eq_subst {s t : String} (h : strCmp s t = .eq) (u : String) :
    strCmp s u = strCmp t u :=
  listCmp_eq_subst charCmp charCmp_eq_subst s.data t.data h u.data

theorem strCmp_lt_trans {s t u : String}
    (h1 : strCmp s t = .lt) (h2 : strCmp t u = .lt) : strCmp s u = .lt :=
  listCmp_lt_trans charCmp charCmp_lt_trans charCmp_eq_subst charCmp_swap
    s.data t.data u.data h1 h2

theorem pairCmp_split (p q : String × Nat) :
    pairCmp p q = match strCmp p.1 q.1 with
      | .eq => natCmp p.2 q.2
      | o => o := rfl

theorem pairCmp_swap : CmpSwap pairCmp := by
  intro p q
  rw [pairCmp_split, pairCmp_split, strCmp_swap p.1 q.1, natCmp_swap p.2 q.2]
  cases h : strCmp q.1 p.1 <;> rfl

theorem pairCmp_eq_parts {p q : String × Nat} (hpq : pairCmp p q = .eq) :
    strCmp p.1 q.1 = .eq ∧ natCmp p.2 q.2 = .eq := by
  rw [pairCmp_split] at hpq
  cases hstr : strCmp p.1 q.1 <;> rw [hstr] at hpq <;> simp_all

theorem pairCmp_eq_subst : CmpEqSubst pairCmp := by
  intro p q hpq r
  obtain ⟨h1, h2⟩ := pairCmp_eq_parts hpq
  rw [pairCmp_split, pairCmp_split, strCmp_eq_subst h1 r.1,
    natCmp_eq_eq.mp h2]

theorem pairCmp_lt_iff {p q : String × Nat} :
    pairCmp p q = .lt ↔
      strCmp p.1 q.1 = .lt ∨ (strCmp p.1 q.1 = .eq ∧ natCmp p.2 q.2 = .lt) := by
  rw [pairCmp_split]
  cases h : strCmp p.1 q.1 <;> simp

theorem strCmpEqSubstRight {s t : String} (h : strCmp s t = .eq) (u : String) :
    strCmp u s = strCmp u t := by
  have hswap : CmpSwap strCmp := fun a b => strCmp_swap a b
  have hsub : CmpEqSubst strCmp := fun a b hab c => strCmp_eq_subst hab c
  exact cmpEqSubstRight strCmp hswap hsub s t h u

theorem pairCmp_lt_trans : CmpLtTrans pairCmp := by
  intro p q r hpq hqr
  rcases pairCmp_lt_iff.mp hpq with h1 | ⟨h1, h1n⟩ <;>
    rcases pairCmp_lt_iff.mp hqr with h2 | ⟨h2, h2n⟩ <;>
      apply pairCmp_lt_iff.mpr
  · exact Or.inl (strCmp_lt_trans h1 h2)
  · exact Or.inl (by rw [strCmpEqSubstRight h2 p.1] at h1; exact h1)
  · exact Or.inl (by rw [strCmp_eq_subst h1 r.1]; exact h2)
  · refine Or.inr ⟨by rw [strCmp_eq_subst h1 r.1]; exact h2, ?_⟩
    exact natCmp_lt_trans p.2 q.2 r.2 h1n h2n

theorem keyCmp_swap : CmpSwap keyCmp :=
  listCmp_swap pairCmp pairCmp_swap

theorem keyCmp_lt_trans : CmpLtTrans keyCmp :=
  listCmp_lt_trans pairCmp pairCmp_lt_trans pairCmp_eq_subst pairCmp_swap

theorem keyCmp_eq_subst : CmpEqSubst keyCmp :=
  listCmp_eq_subst pairCmp pairCmp_eq_subst

theorem keyLe_total (a b : List (String × Nat)) : keyLe a b ∨ keyLe b a := by
  unfold keyLe
  by_cases h : keyCmp a b = Ordering.gt
  · right
    rw [keyCmp_swap b a, h]
    simp [Ordering.swap]
  · left; exact h

theorem keyLe_trans {a b c : List (String × Nat)}
    (hab : keyLe a b) (hbc : keyLe b c) : keyLe a c := by
  cases h1 : keyCmp a b with
  | gt => exact absurd h1 hab
  | eq =>
    have h := keyCmp_eq_subst a b h1 c
    unfold keyLe at *
    rw [h]; exact hbc
  | lt =>
    cases h2 : keyCmp b c with
    | gt => exact absurd h2 hbc
    | eq =>
      have h3 := cmpEqSubstRight keyCmp keyCmp_swap keyCmp_eq_subst b c h2 a
      unfold keyLe
      rw [← h3, h1]
      simp
    | lt =>
      unfold keyLe
      rw [keyCmp_lt_trans a b c h1 h2]
      simp

theorem sortByKey_perm (key : α → String) (l : List α) : (sortByKey key l).Perm l :=
  List.perm_insertionSort _ l

theorem sortByKey_sorted (key : α → String) (l : List α) :
    (sortByKey key l).Sorted
      (fun a b => keyLe (naturalKeys (key a)) (naturalKeys (key b))) := by
  haveI : IsTotal α fun a b => keyLe (naturalKeys (key a)) (naturalKeys (key b)) :=
    ⟨fun a b => keyLe_total _ _⟩
  haveI : IsTrans α fun a b => keyLe (naturalKeys (key a)) (naturalKeys (key b)) :=
    ⟨fun _ _ _ hab hbc => keyLe_trans hab hbc⟩
  exact List.sorted_insertionSort _ l

/-- Claim C5: the natural-key sort function splits each name into alternating
numeric and non-numeric runs, comparing digit runs as integers and the other
runs as literal text, and sorts every list of names by that key; in
particular sorting ["Gi1/10", "Gi1/2", "Gi1/1"] yields
["Gi1/1", "Gi1/2", "Gi1/10"]. -/
theorem natural_key_sort_correct :
    (∀ l : List String, (human_sorted l).Perm l ∧
      (human_sorted l).Sorted (fun a b => keyLe (naturalKeys a) (naturalKeys b)))
    ∧ naturalKeys "Gi1/10" =
        [("", 0), ("Gi", 0), ("", 1), ("/", 0), ("", 10), ("", 0), ("", 0), ("", 0)]
    ∧ human_sorted ["Gi1/10", "Gi1/2", "Gi1/1"] = ["Gi1/1", "Gi1/2", "Gi1/10"] := by
  refine ⟨fun l => ⟨sortByKey_perm _ l, sortByKey_sorted _ l⟩, by decide, by decide⟩

/-! ### Facts about `compareAttributes` -/

theorem compareAttributes_true_split (n1 l1 d1 n2 l2 d2 : String) (x : Bool) :
    compareAttributes true n1 l1 d1 n2 l2 d2 x =
      (compareAttributes false n1 l1 d1 n2 l2 d2 x && (d1 == d2)) := rfl

theorem compareAttributes_desc_ne (n1 l1 d1 n2 l2 d2 : String) (x : Bool)
    (h : d2 ≠ d1) : compareAttributes true n1 l1 d1 n2 l2 d2 x = false := by
  rw [compareAttributes_true_split, beq_eq_false_iff_ne.mpr (Ne.symm h),
    Bool.and_false]

theorem compareAttributes_names_eq (cfg : Bool) (n1 l1 d1 n2 l2 d2 : String)
    (x : Bool) (h : compareAttributes cfg n1 l1 d1 n2 l2 d2 x = true) :
    n1 = n2 := by
  unfold compareAttributes at h
  cases cfg <;> simp at h
  · exact h.1.1
  · exact h.1.1.1

/-- Claim C3: record equality never depends on the identifier or the
is-template flag, for every comparison-record kind; in particular an
Interface record built from a device component and one built from a template
with identical name, type and enabled values are equal even though their
identifiers differ and their template flags are false and true. -/
theorem comparison_eq_ignores_id_and_template_flag :
    (∀ (cfg : Bool) (a b : InterfaceComparison) (i j : Nat) (s t : Bool),
      InterfaceComparison.beq cfg { a with id := i, is_template := s }
        { b with id := j, is_template := t } = InterfaceComparison.beq cfg a b)
    ∧ (∀ (cfg : Bool) (a b : FrontPortComparison) (i j : Nat) (s t : Bool),
      FrontPortComparison.beq cfg { a with id := i, is_template := s }
        { b with id := j, is_template := t } = FrontPortComparison.beq cfg a b)
    ∧ (∀ (cfg : Bool) (a b : RearPortComparison) (i j : Nat) (s t : Bool),
      RearPortComparison.beq cfg { a with id := i, is_template := s }
        { b with id := j, is_template := t } = RearPortComparison.beq cfg a b)
    ∧ (∀ (cfg : Bool) (a b : ConsolePortComparison) (i j : Nat) (s t : Bool),
      ConsolePortComparison.beq cfg { a with id := i, is_template := s }
        { b with id := j, is_template := t } = ConsolePortComparison.beq cfg a b)
    ∧ (∀ (cfg : Bool) (a b : ConsoleServerPortComparison) (i j : Nat) (s t : Bool),
      ConsoleServerPortComparison.beq cfg { a with id := i, is_template := s }
        { b with id := j, is_template := t } =
          ConsoleServerPortComparison.beq cfg a b)
    ∧ (∀ (cfg : Bool) (a b : PowerPortComparison) (i j : Nat) (s t : Bool),
      PowerPortComparison.beq cfg { a with id := i, is_template := s }
        { b with id := j, is_template := t } = PowerPortComparison.beq cfg a b)
    ∧ (∀ (cfg : Bool) (a b : PowerOutletComparison) (i j : Nat) (s t : Bool),
      PowerOutletComparison.beq cfg { a with id := i, is_template := s }
        { b with id := j, is_template := t } = PowerOutletComparison.beq cfg a b)
    ∧ (∀ (cfg : Bool) (a b : DeviceBayComparison) (i j : Nat) (s t : Bool),
      DeviceBayComparison.beq cfg { a with id := i, is_template := s }
        { b with id := j, is_template := t } = DeviceBayComparison.beq cfg a b)
    ∧ (∀ (cfg : Bool) (a b : ModuleBayComparison) (i j : Nat) (s t : Bool),
      ModuleBayComparison.beq cfg { a with id := i, is_template := s }
        { b with id := j, is_template := t } = ModuleBayComparison.beq cfg a b)
    ∧ (∀ cfg : Bool, InterfaceComparison.beq cfg
        { id := 1, name := "Gi1/1", label := "", description := "",
          type := "1000base-t", type_display := "1000BASE-T", enabled := true,
          is_template := false }
        { id := 2, name := "Gi1/1", label := "", description := "",
          type := "1000base-t", type_display := "1000BASE-T", enabled := true,
          is_template := true } = true) :=
  ⟨fun _ _ _ _ _ _ _ => rfl, fun _ _ _ _ _ _ _ => rfl, fun _ _ _ _ _ _ _ => rfl,
    fun _ _ _ _ _ _ _ => rfl, fun _ _ _ _ _ _ _ => rfl, fun _ _ _ _ _ _ _ => rfl,
    fun _ _ _ _ _ _ _ => rfl, fun _ _ _ _ _ _ _ => rfl, fun _ _ _ _ _ _ _ => rfl,
    fun cfg => by cases cfg <;> decide⟩

/-- Claim C4: for every kind, two records identical except in description
are unequal when `compare_description` is true and equal when it is false,
and description has no other effect on equality: with the flag false the
descriptions are ignored entirely, and with the flag true equality is
exactly the flag-false equality conjoined with description equality. -/
theorem comparison_eq_description_sensitivity :
    (∀ (a : InterfaceComparison) (d : String), d ≠ a.description →
      InterfaceComparison.beq true a { a with description := d } = false)
    ∧ (∀ (a : InterfaceComparison) (d : String),
      InterfaceComparison.beq false a { a with description := d } = true)
    ∧ (∀ (a b : InterfaceComparison) (d e : String),
      InterfaceComparison.beq false { a with description := d }
        { b with description := e } = InterfaceComparison.beq false a b)
    ∧ (∀ a b : InterfaceComparison, InterfaceComparison.beq true a b =
      (InterfaceComparison.beq false a b && (a.description == b.description)))
    ∧ (∀ (a : FrontPortComparison) (d : String), d ≠ a.description →
      FrontPortComparison.beq true a { a with description := d } = false)
    ∧ (∀ (a : FrontPortComparison) (d : String),
      FrontPortComparison.beq false a { a with description := d } = true)
    ∧ (∀ (a b : FrontPortComparison) (d e : String),
      FrontPortComparison.beq false { a with description := d }
        { b with description := e } = FrontPortComparison.beq false a b)
    ∧ (∀ a b : FrontPortComparison, FrontPortComparison.beq true a b =
      (FrontPortComparison.beq false a b && (a.description == b.description)))
    ∧ (∀ (a : RearPortComparison) (d : String), d ≠ a.description →
      RearPortComparison.beq true a { a with description := d } = false)
    ∧ (∀ (a : RearPortComparison) (d : String),
      RearPortComparison.beq false a { a with description := d } = true)
    ∧ (∀ (a b : RearPortComparison) (d e : String),
      RearPortComparison.beq false { a with description := d }
        { b with description := e } = RearPortComparison.beq false a b)
    ∧ (∀ a b : RearPortComparison, RearPortComparison.beq true a b =
      (RearPortComparison.beq false a b && (a.description == b.description)))
    ∧ (∀ (a : ConsolePortComparison) (d : String), d ≠ a.description →
      ConsolePortComparison.beq true a { a with description := d } = false)
    ∧ (∀ (a : ConsolePortComparison) (d : String),
      ConsolePortComparison.beq false a { a with description := d } = true)
    ∧ (∀ (a b : ConsolePortComparison) (d e : String),
      ConsolePortComparison.beq false { a with description := d }
        { b with description := e } = ConsolePortComparison.beq false a b)
    ∧ (∀ a b : ConsolePortComparison, ConsolePortComparison.beq true a b =
      (ConsolePortComparison.beq false a b && (a.description == b.description)))
    ∧ (∀ (a : ConsoleServerPortComparison) (d : String), d ≠ a.description →
      ConsoleServerPortComparison.beq true a { a with description := d } = false)
    ∧ (∀ (a : ConsoleServerPortComparison) (d : String),
      ConsoleServerPortComparison.beq false a { a with description := d } = true)
    ∧ (∀ (a b : ConsoleServerPortComparison) (d e : String),
      ConsoleServerPortComparison.beq false { a with description := d }
        { b with description := e } = ConsoleServerPortComparison.beq false a b)
    ∧ (∀ a b : ConsoleServerPortComparison,
      ConsoleServerPortComparison.beq true a b =
        (ConsoleServerPortComparison.beq false a b &&
          (a.description == b.description)))
    ∧ (∀ (a : PowerPortComparison) (d : String), d ≠ a.description →
      PowerPortComparison.beq true a { a with description := d } = false)
    ∧ (∀ (a : PowerPortComparison) (d : String),
      PowerPortComparison.beq false a { a with description := d } = true)
    ∧ (∀ (a b : PowerPortComparison) (d e : String),
      PowerPortComparison.beq false { a with description := d }
        { b with description := e } = PowerPortComparison.beq false a b)
    ∧ (∀ a b : PowerPortComparison, PowerPortComparison.beq true a b =
      (PowerPortComparison.beq false a b && (a.description == b.description)))
    ∧ (∀ (a : PowerOutletComparison) (d : String), d ≠ a.description →
      PowerOutletComparison.beq true a { a with description := d } = false)
    ∧ (∀ (a : PowerOutletComparison) (d : String),
      PowerOutletComparison.beq false a { a with description := d } = true)
    ∧ (∀ (a b : PowerOutletComparison) (d e : String),
      PowerOutletComparison.beq false { a with description := d }
        { b with description := e } = PowerOutletComparison.beq false a b)
    ∧ (∀ a b : PowerOutletComparison, PowerOutletComparison.beq true a b =
      (PowerOutletComparison.beq false a b && (a.description == b.description)))
    ∧ (∀ (a : DeviceBayComparison) (d : String), d ≠ a.description →
      DeviceBayComparison.beq true a { a with description := d } = false)
    ∧ (∀ (a : DeviceBayComparison) (d : String),
      DeviceBayComparison.beq false a { a with description := d } = true)
    ∧ (∀ (a b : DeviceBayComparison) (d e : String),
      DeviceBayComparison.beq false { a with description := d }
        { b with description := e } = DeviceBayComparison.beq false a b)
    ∧ (∀ a b : DeviceBayComparison, DeviceBayComparison.beq true a b =
      (DeviceBayComparison.beq false a b && (a.description == b.description)))
    ∧ (∀ (a : ModuleBayComparison) (d : String), d ≠ a.description →
      ModuleBayComparison.beq true a { a with description := d } = false)
    ∧ (∀ (a : ModuleBayComparison) (d : String),
      ModuleBayComparison.beq false a { a with description := d } = true)
    ∧ (∀ (a b : ModuleBayComparison) (d e : String),
      ModuleBayComparison.beq false { a with description := d }
        { b with description := e } = ModuleBayComparison.beq false a b)
    ∧ (∀ a b : ModuleBayComparison, ModuleBayComparison.beq true a b =
      (ModuleBayComparison.beq false a b && (a.description == b.description))) :=
  ⟨fun a d h => compareAttributes_desc_ne _ _ _ _ _ _ _ h,
    fun a d => by simp [InterfaceComparison.beq, compareAttributes],
    fun _ _ _ _ => rfl, fun _ _ => rfl,
    fun a d h => compareAttributes_desc_ne _ _ _ _ _ _ _ h,
    fun a d => by simp [FrontPortComparison.beq, compareAttributes],
    fun _ _ _ _ => rfl, fun _ _ => rfl,
    fun a d h => compareAttributes_desc_ne _ _ _ _ _ _ _ h,
    fun a d => by simp [RearPortComparison.beq, compareAttributes],
    fun _ _ _ _ => rfl, fun _ _ => rfl,
    fun a d h => compareAttributes_desc_ne _ _ _ _ _ _ _ h,
    fun a d => by simp [ConsolePortComparison.beq, compareAttributes],
    fun _ _ _ _ => rfl, fun _ _ => rfl,
    fun a d h => compareAttributes_desc_ne _ _ _ _ _ _ _ h,
    fun a d => by simp [ConsoleServerPortComparison.beq, compareAttributes],
    fun _ _ _ _ => rfl, fun _ _ => rfl,
    fun a d h => compareAttributes_desc_ne _ _ _ _ _ _ _ h,
    fun a d => by simp [PowerPortComparison.beq, compareAttributes],
    fun _ _ _ _ => rfl, fun _ _ => rfl,
    fun a d h => compareAttributes_desc_ne _ _ _ _ _ _ _ h,
    fun a d => by simp [PowerOutletComparison.beq, compareAttributes],
    fun _ _ _ _ => rfl, fun _ _ => rfl,
    fun a d h => compareAttributes_desc_ne _ _ _ _ _ _ _ h,
    fun a d => by simp [DeviceBayComparison.beq, compareAttributes],
    fun _ _ _ _ => rfl, fun _ _ => rfl,
    fun a d h => compareAttributes_desc_ne _ _ _ _ _ _ _ h,
    fun a d => by simp [ModuleBayComparison.beq, compareAttributes],
    fun _ _ _ _ => rfl, fun _ _ => rfl⟩

/-- Witness for claim C4: two concrete Interface records differing only in
description are unequal under the default configuration and equal with
description comparison disabled. -/
theorem comparison_eq_description_sensitivity_witness :
    ("drift" ≠ ("" : String)) ∧
      InterfaceComparison.beq true
        { id := 1, name := "Gi1/1", label := "", description := "",
          type := "1000base-t", type_display := "1000BASE-T", enabled := true }
        { id := 1, name := "Gi1/1", label := "", description := "drift",
          type := "1000base-t", type_display := "1000BASE-T", enabled := true }
        = false ∧
      InterfaceComparison.beq false
        { id := 1, name := "Gi1/1", label := "", description := "",
          type := "1000base-t", type_display := "1000BASE-T", enabled := true }
        { id := 1, name := "Gi1/1", label := "", description := "drift",
          type := "1000base-t", type_display := "1000BASE-T", enabled := true }
        = true :=
  ⟨by decide,
    comparison_eq_description_sensitivity.1
      { id := 1, name := "Gi1/1", label := "", description := "",
        type := "1000base-t", type_display := "1000BASE-T", enabled := true }
      "drift" (by decide),
    comparison_eq_description_sensitivity.2.1
      { id := 1, name := "Gi1/1", label := "", description := "",
        type := "1000base-t", type_display := "1000BASE-T", enabled := true }
      "drift"⟩

theorem syncStatusOf_cases (name : α → String) (t c : Option α) :
    (syncStatusOf name t c = "in_sync" ↔
      ∃ tv cv, t = some tv ∧ c = some cv ∧ name tv = name cv)
    ∧ (syncStatusOf name t c = "name_mismatch" ↔
      ∃ tv cv, t = some tv ∧ c = some cv ∧ name tv ≠ name cv)
    ∧ (syncStatusOf name t c = "missing_from_device" ↔ (t.isSome ∧ c = none))
    ∧ (syncStatusOf name t c = "missing_from_template" ↔ (t = none ∧ c.isSome)) := by
  cases t with
  | none =>
    cases c with
    | none =>
      refine ⟨?_, ?_, ?_, ?_⟩ <;> constructor <;> intro h
      · exact absurd h (show ("unknown" : String) ≠ "in_sync" by decide)
      · obtain ⟨tv, cv, h1, h2, h3⟩ := h; exact Option.noConfusion h1
      · exact absurd h (show ("unknown" : String) ≠ "name_mismatch" by decide)
      · obtain ⟨tv, cv, h1, h2, h3⟩ := h; exact Option.noConfusion h1
      · exact absurd h (show ("unknown" : String) ≠ "missing_from_device" by decide)
      · simp at h
      · exact absurd h (show ("unknown" : String) ≠ "missing_from_template" by decide)
      · simp at h
    | some cv0 =>
      refine ⟨?_, ?_, ?_, ?_⟩ <;> constructor <;> intro h
      · exact absurd h
          (show ("missing_from_template" : String) ≠ "in_sync" by decide)
      · obtain ⟨tv, cv, h1, h2, h3⟩ := h; exact Option.noConfusion h1
      · exact absurd h
          (show ("missing_from_template" : String) ≠ "name_mismatch" by decide)
      · obtain ⟨tv, cv, h1, h2, h3⟩ := h; exact Option.noConfusion h1
      · exact absurd h
          (show ("missing_from_template" : String) ≠ "missing_from_device" by decide)
      · simp at h
      · exact ⟨rfl, rfl⟩
      · rfl
  | some tv0 =>
    cases c with
    | none =>
      refine ⟨?_, ?_, ?_, ?_⟩ <;> constructor <;> intro h
      · exact absurd h
          (show ("missing_from_device" : String) ≠ "in_sync" by decide)
      · obtain ⟨tv, cv, h1, h2, h3⟩ := h; exact Option.noConfusion h2
      · exact absurd h
          (show ("missing_from_device" : String) ≠ "name_mismatch" by decide)
      · obtain ⟨tv, cv, h1, h2, h3⟩ := h; exact Option.noConfusion h2
      · exact ⟨rfl, rfl⟩
      · rfl
      · exact absurd h
          (show ("missing_from_device" : String) ≠ "missing_from_template" by decide)
      · exact Option.noConfusion h.1
    | some cv0 =>
      by_cases hn : name tv0 = name cv0
      · have hs : syncStatusOf name (some tv0) (some cv0) = "in_sync" := by
          simp [syncStatusOf, hn]
        rw [hs]
        refine ⟨?_, ?_, ?_, ?_⟩ <;> constructor <;> intro h
        · exact ⟨tv0, cv0, rfl, rfl, hn⟩
        · rfl
        · exact absurd h (by decide)
        · obtain ⟨tv, cv, h1, h2, h3⟩ := h
          cases h1; cases h2; exact absurd hn h3
        · exact absurd h (by decide)
        · exact Option.noConfusion h.2
        · exact absurd h (by decide)
        · exact Option.noConfusion h.1
      · have hs : syncStatusOf name (some tv0) (some cv0) = "name_mismatch" := by
          simp [syncStatusOf, hn]
        rw [hs]
        refine ⟨?_, ?_, ?_, ?_⟩ <;> constructor <;> intro h
        · exact absurd h (by decide)
        · obtain ⟨tv, cv, h1, h2, h3⟩ := h
          cases h1; cases h2; exact absurd h3 hn
        · exact ⟨tv0, cv0, rfl, rfl, hn⟩
        · rfl
        · exact absurd h (by decide)
        · exact Option.noConfusion h.2
        · exact absurd h (by decide)
        · exact Option.noConfusion h.1

/-- Claim C1: the diff read path produces one row per member of the set
union of the two record lists, in natural-name order (the union is sorted
by the natural key of the name and rows follow it one-to-one); each row is
classified in_sync exactly when both sides are present with equal names,
name_mismatch exactly when both sides are present with different names,
missing_from_device exactly when only a template matches,
missing_from_template exactly when only a component matches; the aggregate
counters count the rows in each class; and on device components named A, B
and templates named B, C (identical comparable attributes for B) the result
is exactly the three rows missing_from_template (A), in_sync (B),
missing_from_device (C) with counts 1, 1, 1 and 0 name mismatches. -/
theorem diff_read_path_correct :
    (∀ (α : Type) (eqb : α → α → Bool) (name : α → String)
      (comps temps : List α),
      (get_components eqb name comps temps).rows.length =
        (pySet eqb (temps ++ comps)).length
      ∧ (get_components eqb name comps temps).rows =
        (sortByKey name (pySet eqb (temps ++ comps))).map (fun i =>
          (temps.find? (fun y => eqb y i), comps.find? (fun y => eqb y i),
            syncStatusOf name (temps.find? (fun y => eqb y i))
              (comps.find? (fun y => eqb y i))))
      ∧ (sortByKey name (pySet eqb (temps ++ comps))).Sorted
          (fun a b => keyLe (naturalKeys (name a)) (naturalKeys (name b)))
      ∧ (∀ t c s, (t, c, s) ∈ (get_components eqb name comps temps).rows →
          (s = "in_sync" ↔ ∃ tv cv, t = some tv ∧ c = some cv ∧ name tv = name cv)
          ∧ (s = "name_mismatch" ↔
            ∃ tv cv, t = some tv ∧ c = some cv ∧ name tv ≠ name cv)
          ∧ (s = "missing_from_device" ↔ (t.isSome ∧ c = none))
          ∧ (s = "missing_from_template" ↔ (t = none ∧ c.isSome)))
      ∧ ((get_components eqb name comps temps).stats.in_sync =
          ((get_components eqb name comps temps).rows.map
            (fun r => r.2.2)).count "in_sync"
        ∧ (get_components eqb name comps temps).stats.name_mismatch =
          ((get_components eqb name comps temps).rows.map
            (fun r => r.2.2)).count "name_mismatch"
        ∧ (get_components eqb name comps temps).stats.missing_from_device =
          ((get_components eqb name comps temps).rows.map
            (fun r => r.2.2)).count "missing_from_device"
        ∧ (get_components eqb name comps temps).stats.missing_from_template =
          ((get_components eqb name comps temps).rows.map
            (fun r => r.2.2)).count "missing_from_template"))
    ∧ get_components (InterfaceComparison.beq true) (fun r => r.name)
        [{ id := 1, name := "A", label := "", description := "", type := "t",
           type_display := "T", enabled := true },
         { id := 2, name := "B", label := "", description := "", type := "t",
           type_display := "T", enabled := true }]
        [{ id := 10, name := "B", label := "", description := "", type := "t",
           type_display := "T", enabled := true, is_template := true },
         { id := 11, name := "C", label := "", description := "", type := "t",
           type_display := "T", enabled := true, is_template := true }] =
      { rows :=
          [(none,
            some { id := 1, name := "A", label := "", description := "",
                   type := "t", type_display := "T", enabled := true },
            "missing_from_template"),
           (some { id := 10, name := "B", label := "", description := "",
                   type := "t", type_display := "T", enabled := true,
                   is_template := true },
            some { id := 2, name := "B", label := "", description := "",
                   type := "t", type_display := "T", enabled := true },
            "in_sync"),
           (some { id := 11, name := "C", label := "", description := "",
                   type := "t", type_display := "T", enabled := true,
                   is_template := true },
            none,
            "missing_from_device")],
        stats :=
          { in_sync := 1, name_mismatch := 0, missing_from_device := 1,
            missing_from_template := 1 } } := by
  constructor
  · intro α eqb name comps temps
    refine ⟨?_, rfl, sortByKey_sorted _ _, ?_, rfl, rfl, rfl, rfl⟩
    · have h := (sortByKey_perm name (pySet eqb (temps ++ comps))).length_eq
      simp [get_components, h]
    intro t c s hmem
    simp only [get_components, List.mem_map] at hmem
    obtain ⟨i, _, heq⟩ := hmem
    have ht : t = temps.find? (fun y => eqb y i) := congrArg (fun r => r.1) heq |>.symm
    have hc : c = comps.find? (fun y => eqb y i) := congrArg (fun r => r.2.1) heq |>.symm
    have hs : s = syncStatusOf name (temps.find? (fun y => eqb y i))
        (comps.find? (fun y => eqb y i)) := congrArg (fun r => r.2.2) heq |>.symm
    subst ht; subst hc; subst hs
    exact syncStatusOf_cases name _ _
  · decide

/-- Claim C6 (as holding on the code): whenever the record equality used to
match the two sides forces names to be equal — which every comparison-record
kind's equality does, since `_compare_attributes` starts from
`self.name == other.name` — the name_mismatch classification is
unreachable: every row with both sides present is in_sync, and the
name_mismatch counter is 0. -/
theorem name_mismatch_unreachable (eqb : α → α → Bool) (name : α → String)
    (comps temps : List α)
    (hname : ∀ a b, eqb a b = true → name a = name b) :
    (∀ r ∈ (get_components eqb name comps temps).rows,
      r.2.2 ≠ "name_mismatch" ∧ (r.1.isSome → r.2.1.isSome → r.2.2 = "in_sync"))
    ∧ (get_components eqb name comps temps).stats.name_mismatch = 0 := by
  have hrow : ∀ r ∈ (get_components eqb name comps temps).rows,
      r.2.2 ≠ "name_mismatch" ∧
        (r.1.isSome → r.2.1.isSome → r.2.2 = "in_sync") := by
    intro r hmem
    simp only [get_components, List.mem_map] at hmem
    obtain ⟨i, _, heq⟩ := hmem
    subst heq
    cases ht : temps.find? (fun y => eqb y i) with
    | none => cases hc : comps.find? (fun y => eqb y i) <;>
        simp [syncStatusOf, ht, hc]
    | some tv =>
      cases hc : comps.find? (fun y => eqb y i) with
      | none => simp [syncStatusOf, ht, hc]
      | some cv =>
        have hpt := List.find?_some ht
        have hpc := List.find?_some hc
        have htv : name tv = name i := hname tv i hpt
        have hcv : name cv = name i := hname cv i hpc
        have : name tv = name cv := htv.trans hcv.symm
        simp [syncStatusOf, ht, hc, this]
  refine ⟨hrow, ?_⟩
  have hnotmem : "name_mismatch" ∉
      ((get_components eqb name comps temps).rows.map (fun r => r.2.2)) := by
    intro hmem
    simp only [List.mem_map] at hmem
    obtain ⟨r, hr, hs⟩ := hmem
    exact (hrow r hr).1 hs
  show ((get_components eqb name comps temps).rows.map (fun r => r.2.2)).count
    "name_mismatch" = 0
  exact List.count_eq_zero.mpr hnotmem

/-- Witness for claim C6: the Interface kind's equality forces name
equality, and on a concrete mixed-name input the name_mismatch counter is
0. -/
theorem name_mismatch_unreachable_witness :
    (∀ a b : InterfaceComparison,
      InterfaceComparison.beq true a b = true → a.name = b.name)
    ∧ (get_components (InterfaceComparison.beq true) (fun r => r.name)
        [{ id := 1, name := "A", label := "", description := "", type := "t",
           type_display := "T", enabled := true }]
        [{ id := 10, name := "B", label := "", description := "", type := "t",
           type_display := "T", enabled := true, is_template := true }]
        ).stats.name_mismatch = 0 :=
  ⟨fun a b h => compareAttributes_names_eq true a.name a.label a.description
      b.name b.label b.description _ h,
    (name_mismatch_unreachable (InterfaceComparison.beq true) (fun r => r.name)
      [{ id := 1, name := "A", label := "", description := "", type := "t",
         type_display := "T", enabled := true }]
      [{ id := 10, name := "B", label := "", description := "", type := "t",
         type_display := "T", enabled := true, is_template := true }]
      (fun a b h => compareAttributes_names_eq true a.name a.label a.description
        b.name b.label b.description _ h)).2⟩

/-- Witness for claim C1: on a device with one component named A and no
templates, the single row is classified missing_from_template, and the
row-classification clause instantiates. -/
theorem diff_read_path_correct_witness :
    ((none,
      some ({ id := 1, name := "A", label := "", description := "",
              type := "t", type_display := "T", enabled := true }
          : InterfaceComparison),
      "missing_from_template") ∈
        (get_components (InterfaceComparison.beq true) (fun r => r.name)
          [{ id := 1, name := "A", label := "", description := "", type := "t",
             type_display := "T", enabled := true }] []).rows)
    ∧ (("missing_from_template" : String) = "missing_from_template" ↔
        ((none : Option InterfaceComparison) = none ∧
          (some ({ id := 1, name := "A", label := "", description := "",
                   type := "t", type_display := "T", enabled := true }
              : InterfaceComparison)).isSome)) :=
  ⟨by decide,
    ((diff_read_path_correct.1 InterfaceComparison (InterfaceComparison.beq true)
      (fun r => r.name)
      [{ id := 1, name := "A", label := "", description := "", type := "t",
         type_display := "T", enabled := true }] []).2.2.2.1 none
      (some { id := 1, name := "A", label := "", description := "", type := "t",
              type_display := "T", enabled := true })
      "missing_from_template" (by decide)).2.2.2⟩

theorem add_missing_created_zero (cfg : Bool) (comps temps : List DbRecord)
    (hall : ∀ t ∈ temps, t.name ∈ comps.map (fun c => c.name)) :
    (handle_bulk_add_missing cfg comps temps).2 = 0 := by
  show (temps.filter
    (fun t => !((comps.map (fun c => c.name)).contains t.name))).length = 0
  rw [List.length_eq_zero, List.filter_eq_nil_iff]
  intro t ht
  simp [hall t ht]

/-- Claim C2: bulk add-missing creates exactly one component (copying the
template, name included) per template whose name is absent from the current
component names — zero when every template name is present, and zero again
on a re-run after a successful run; bulk remove-extra deletes exactly the
components whose name appears in no template, and a second run deletes
nothing. -/
theorem bulk_sync_idempotent (cfg : Bool) (comps temps : List DbRecord) :
    (handle_bulk_add_missing cfg comps temps).1 =
      comps ++ (temps.filter
        (fun t => !((comps.map (fun c => c.name)).contains t.name))).map
          (createFromTemplate cfg)
    ∧ (handle_bulk_add_missing cfg comps temps).2 =
      (temps.filter
        (fun t => !((comps.map (fun c => c.name)).contains t.name))).length
    ∧ ((∀ t ∈ temps, t.name ∈ comps.map (fun c => c.name)) →
        (handle_bulk_add_missing cfg comps temps).2 = 0)
    ∧ (handle_bulk_add_missing cfg
        (handle_bulk_add_missing cfg comps temps).1 temps).2 = 0
    ∧ (handle_bulk_remove_out_of_sync comps temps).1 =
      comps.filter (fun c => (temps.map (fun t => t.name)).contains c.name)
    ∧ (handle_bulk_remove_out_of_sync comps temps).2 =
      (comps.filter
        (fun c => !((temps.map (fun t => t.name)).contains c.name))).length
    ∧ (handle_bulk_remove_out_of_sync
        (handle_bulk_remove_out_of_sync comps temps).1 temps).2 = 0 := by
  refine ⟨rfl, rfl, add_missing_created_zero cfg comps temps, ?_, rfl, rfl, ?_⟩
  · apply add_missing_created_zero
    intro t ht
    by_cases hmem : t.name ∈ comps.map (fun c => c.name)
    · show t.name ∈ (comps ++ _).map (fun c => c.name)
      rw [List.map_append]
      exact List.mem_append_left _ hmem
    · have htf : t ∈ temps.filter
          (fun u => !((comps.map (fun c => c.name)).contains u.name)) :=
        List.mem_filter.mpr ⟨ht, by simp [hmem]⟩
      show t.name ∈ (comps ++ _).map (fun c => c.name)
      rw [List.map_append]
      apply List.mem_append_right
      rw [List.map_map]
      exact List.mem_map.mpr ⟨t, htf, rfl⟩
  · show (List.filter _ (comps.filter
      (fun c => (temps.map (fun t => t.name)).contains c.name))).length = 0
    rw [List.length_eq_zero, List.filter_eq_nil_iff]
    intro c hc
    have h2 := (List.mem_filter.mp hc).2
    simp_all

/-- Witness for claim C2: when the only template's name already exists on
the device, add-missing creates zero records. -/
theorem bulk_sync_idempotent_witness :
    (∀ t ∈ [({ id := 5, name := "eth0", label := "uplink",
               description := "x" } : DbRecord)],
      t.name ∈ ([({ id := 1, name := "eth0", label := "", description := "" }
        : DbRecord)].map (fun c => c.name)))
    ∧ (handle_bulk_add_missing true
        [{ id := 1, name := "eth0", label := "", description := "" }]
        [{ id := 5, name := "eth0", label := "uplink", description := "x" }]).2
      = 0 :=
  ⟨by decide,
    (bulk_sync_idempotent true
      [{ id := 1, name := "eth0", label := "", description := "" }]
      [{ id := 5, name := "eth0", label := "uplink",
          description := "x" }]).2.2.1 (by decide)⟩

/-- Counterexample to claim C7 as stated: the rendered message for
counters (2, 1, 0, 3) and kind "interfaces" does not contain the substring
"created 2 interfaces" — `str.capitalize()` upper-cases the first clause to
"Created 2 interfaces". -/
theorem success_message_counterexample :
    containsSubstring (create_success_message
      { created := 2, updated := 1, deleted := 0, fixed := 3 } "interfaces")
      "created 2 interfaces" = false := by decide

/-- Claim C7, amended: the builder emits one clause per strictly positive
counter in the order created, updated, deleted, fixed, joined by "; " and
capitalized — so (2, 1, 0, 3) for "interfaces" yields exactly
"Created 2 interfaces; updated 1 interfaces; fixed 3 interfaces", which
contains "updated 1 interfaces" and "fixed 3 interfaces", contains the
first clause in its capitalized form "Created 2 interfaces", and contains
no "deleted" clause — and the all-zero record yields exactly
"No changes made to <kind>". -/
theorem success_message_composition :
    (∀ kind : String, create_success_message
      { created := 0, updated := 0, deleted := 0, fixed := 0 } kind =
        "No changes made to " ++ kind)
    ∧ create_success_message
        { created := 2, updated := 1, deleted := 0, fixed := 3 } "interfaces" =
      "Created 2 interfaces; updated 1 interfaces; fixed 3 interfaces"
    ∧ containsSubstring (create_success_message
        { created := 2, updated := 1, deleted := 0, fixed := 3 } "interfaces")
        "Created 2 interfaces" = true
    ∧ containsSubstring (create_success_message
        { created := 2, updated := 1, deleted := 0, fixed := 3 } "interfaces")
        "updated 1 interfaces" = true
    ∧ containsSubstring (create_success_message
        { created := 2, updated := 1, deleted := 0, fixed := 3 } "interfaces")
        "fixed 3 interfaces" = true
    ∧ containsSubstring (create_success_message
        { created := 2, updated := 1, deleted := 0, fixed := 3 } "interfaces")
        "deleted" = false :=
  ⟨fun kind => rfl, by decide, by decide, by decide, by decide, by decide⟩

theorem interleave_perm (s : List Bool) :
    ∀ xs ys : List α, (interleave s xs ys).Perm (xs ++ ys) := by
  induction s with
  | nil => intro xs ys; exact List.Perm.refl _
  | cons b s ih =>
    intro xs ys
    cases b
    · cases ys with
      | nil => simp [interleave]
      | cons y ys1 =>
        exact ((ih xs ys1).cons y).trans List.perm_middle.symm
    · cases xs with
      | nil => simp [interleave]
      | cons x xs1 =>
        exact (ih xs1 ys).cons x

/-- Claim C8: for every schedule of the concurrent phase, the trace is the
interleaving of the deletions task's events with the additions task's
events (so the two may complete in either relative order — both concrete
orders are exhibited, using an update-flavoured addition since the dead
`hasattr(component, "pk")` guard keeps the additions task from persisting
any creation) followed by the name-fix events, so every name fix starts
only after both other steps have completed; and the returned statistics
reflect all three steps as executed — `created` is always 0 because of
that dead guard — and are independent of the schedule. -/
theorem async_bridge_order (schedule : List Bool)
    (remove_ids add_ids : List Nat) (components templates : List DbRecord)
    (unified_components : List (DbRecord × String))
    (unified_templates : List DbRecord) :
    ((process_component_comparison schedule remove_ids add_ids components
        templates unified_components unified_templates).1 =
      interleave schedule (process_deletions remove_ids components).2
        (process_additions add_ids templates components).2 ++
        (process_name_fixes unified_components unified_templates).2)
    ∧ (∀ e ∈ interleave schedule (process_deletions remove_ids components).2
        (process_additions add_ids templates components).2, e.isFix = false)
    ∧ (∀ e ∈ (process_name_fixes unified_components unified_templates).2,
        e.isFix = true)
    ∧ (interleave schedule (process_deletions remove_ids components).2
        (process_additions add_ids templates components).2).Perm
        ((process_deletions remove_ids components).2 ++
          (process_additions add_ids templates components).2)
    ∧ (process_component_comparison schedule remove_ids add_ids components
        templates unified_components unified_templates).2 =
      { created := (process_additions add_ids templates components).1.1,
        updated := (process_additions add_ids templates components).1.2,
        deleted := (process_deletions remove_ids components).1,
        fixed := (process_name_fixes unified_components unified_templates).1 }
    ∧ (process_additions add_ids templates components).1.1 = 0
    ∧ (∀ schedule2 : List Bool,
        (process_component_comparison schedule2 remove_ids add_ids components
          templates unified_components unified_templates).2 =
        (process_component_comparison schedule remove_ids add_ids components
          templates unified_components unified_templates).2)
    ∧ (process_component_comparison [true, false] [1] [2]
        [{ id := 1, name := "a", label := "", description := "" },
         { id := 3, name := "b", label := "", description := "" }]
        [{ id := 2, name := "b", label := "", description := "" }] [] []).1 =
      [SyncEvent.deletion 1, SyncEvent.addition 2]
    ∧ (process_component_comparison [false, true] [1] [2]
        [{ id := 1, name := "a", label := "", description := "" },
         { id := 3, name := "b", label := "", description := "" }]
        [{ id := 2, name := "b", label := "", description := "" }] [] []).1 =
      [SyncEvent.addition 2, SyncEvent.deletion 1] := by
  refine ⟨rfl, ?_, ?_, interleave_perm schedule _ _, rfl,
    by unfold process_additions; split <;> rfl, fun _ => rfl,
    by decide, by decide⟩
  · intro e hmem
    have hor := (interleave_perm schedule
      (process_deletions remove_ids components).2
      (process_additions add_ids templates components).2).mem_iff.mp hmem
    rcases List.mem_append.mp hor with h | h
    · unfold process_deletions at h
      split at h
      · simp at h
      · obtain ⟨c, _, hc⟩ := List.mem_map.mp h
        rw [← hc]; rfl
    · unfold process_additions at h
      split at h
      · simp at h
      · obtain ⟨t, _, ht⟩ := List.mem_map.mp h
        rw [← ht]; rfl
  · intro e hmem
    obtain ⟨p, _, hp⟩ := List.mem_map.mp hmem
    rw [← hp]; rfl

theorem find?_append_of_some {p : α → Bool} {l1 : List α} (l2 : List α)
    {a : α} (h : l1.find? p = some a) : (l1 ++ l2).find? p = some a := by
  induction l1 with
  | nil => simp [List.find?] at h
  | cons x xs ih =>
    rw [List.cons_append]
    cases hx : p x with
    | true =>
      rw [List.find?_cons_of_pos _ hx] at h ⊢
      exact h
    | false =>
      rw [List.find?_cons_of_neg _ (by simp [hx])] at h ⊢
      exact ih h

theorem find?_append_of_none {p : α → Bool} {l1 : List α} (l2 : List α)
    (h : l1.find? p = none) : (l1 ++ l2).find? p = l2.find? p := by
  induction l1 with
  | nil => rfl
  | cons x xs ih =>
    rw [List.cons_append]
    cases hx : p x with
    | true => rw [List.find?_cons_of_pos _ hx] at h; exact absurd h (by simp)
    | false =>
      rw [List.find?_cons_of_neg _ (by simp [hx])] at h ⊢
      exact ih h

theorem populate_preserves (disc : List (String × DiscoveredComponent)) :
    ∀ (reg : List (String × ComponentConfig)) (n : String)
      (c : String × ComponentConfig),
      reg.find? (fun e => e.1 == n) = some c →
      (populate_registry_from_discovery reg disc).find? (fun e => e.1 == n) =
        some c := by
  induction disc with
  | nil => intro reg n c h; exact h
  | cons p rest ih =>
    intro reg n c h
    show (List.foldl _ (if (reg.find? (fun e => e.1 == p.1)).isSome then reg
      else reg ++ [(p.1, configOfDiscovered p.2)]) rest).find? _ = some c
    apply ih
    split
    · exact h
    · exact find?_append_of_some _ h

theorem populate_none (disc : List (String × DiscoveredComponent)) :
    ∀ (reg : List (String × ComponentConfig)) (n : String),
      reg.find? (fun e => e.1 == n) = none →
      disc.find? (fun e => e.1 == n) = none →
      (populate_registry_from_discovery reg disc).find? (fun e => e.1 == n) =
        none := by
  induction disc with
  | nil => intro reg n h _; exact h
  | cons p rest ih =>
    intro reg n hreg hdisc
    rw [List.find?_cons] at hdisc
    split at hdisc
    · exact absurd hdisc (by simp)
    · rename_i hfalse
      have hb : (p.1 == n) = false := hfalse
      show (List.foldl _ (if (reg.find? (fun e => e.1 == p.1)).isSome then reg
        else reg ++ [(p.1, configOfDiscovered p.2)]) rest).find? _ = none
      apply ih _ _ _ hdisc
      split
      · exact hreg
      · rw [find?_append_of_none _ hreg]
        simp [List.find?_cons, hb]

/-- Claim C9: a kind name present neither in the static registry nor in the
discovered map (merged after attempting discovery) makes the configuration
lookup fail with the invalid-input error, and a present kind name yields
exactly its full registry entry. -/
theorem get_component_config_ok
    (discovered : List (String × DiscoveredComponent))
    (component_type : String) (c : String × ComponentConfig)
    (hc : (populate_registry_from_discovery COMPONENT_REGISTRY
      discovered).find? (fun e => e.1 == component_type) = some c) :
    get_component_config discovered component_type = Except.ok c.2 := by
  show (match (populate_registry_from_discovery COMPONENT_REGISTRY
      discovered).find? (fun e => e.1 == component_type) with
    | some e => Except.ok e.2
    | none => Except.error ("Unknown component type: " ++ component_type)) =
    Except.ok c.2
  rw [hc]

theorem registry_lookup_correct
    (discovered : List (String × DiscoveredComponent))
    (component_type : String) :
    ((COMPONENT_REGISTRY.find? (fun e => e.1 == component_type) = none ∧
      discovered.find? (fun e => e.1 == component_type) = none) →
      get_component_config discovered component_type =
        Except.error ("Unknown component type: " ++ component_type))
    ∧ (∀ c, (populate_registry_from_discovery COMPONENT_REGISTRY
        discovered).find? (fun e => e.1 == component_type) = some c →
        get_component_config discovered component_type = Except.ok c.2) := by
  constructor
  · intro h
    have hnone := populate_none discovered COMPONENT_REGISTRY component_type
      h.1 h.2
    show (match (populate_registry_from_discovery COMPONENT_REGISTRY
        discovered).find? (fun e => e.1 == component_type) with
      | some e => Except.ok e.2
      | none => Except.error ("Unknown component type: " ++ component_type)) =
      Except.error ("Unknown component type: " ++ component_type)
    rw [hnone]
  · exact fun c hc => get_component_config_ok discovered component_type c hc

/-- Witness for claim C9: the unknown kind "widgetbay" fails with the
invalid-input error when nothing was discovered, and "interface" resolves
to its static entry. -/
theorem registry_lookup_correct_witness :
    ((COMPONENT_REGISTRY.find? (fun e => e.1 == "widgetbay") = none ∧
      ([] : List (String × DiscoveredComponent)).find?
        (fun e => e.1 == "widgetbay") = none)
    ∧ get_component_config [] "widgetbay" =
        Except.error "Unknown component type: widgetbay")
    ∧ get_component_config [] "interface" =
        Except.ok
          { component_label := "Interfaces", model := "Interface",
            template_model := "InterfaceTemplate",
            comparison_class := "InterfaceComparison",
            permissions := ["dcim.view_interface", "dcim.add_interface",
              "dcim.change_interface", "dcim.delete_interface"],
            factory_fields := ["id", "name", "label", "description", "type",
              "enabled", "mgmt_only", "poe_mode", "poe_type", "rf_role"],
            special_fields := ["type_display"],
            custom_queryset_filter := some "exclude_interface_type_list" } :=
  ⟨⟨⟨by decide, rfl⟩,
    (registry_lookup_correct [] "widgetbay").1 ⟨by decide, rfl⟩⟩,
    (registry_lookup_correct [] "interface").2
      ("interface",
        { component_label := "Interfaces", model := "Interface",
          template_model := "InterfaceTemplate",
          comparison_class := "InterfaceComparison",
          permissions := ["dcim.view_interface", "dcim.add_interface",
            "dcim.change_interface", "dcim.delete_interface"],
          factory_fields := ["id", "name", "label", "description", "type",
            "enabled", "mgmt_only", "poe_mode", "poe_type", "rf_role"],
          special_fields := ["type_display"],
          custom_queryset_filter := some "exclude_interface_type_list" })
      (by decide)⟩

/-- Counterexample to claim C10 as stated: with a discovery result already
cached from an earlier pass (settings are re-read every pass, so the
enabled flag can have been switched off since), a call with the enabled
flag false returns the cached non-empty map, not an empty one. -/
theorem auto_discovery_disabled_counterexample :
    (discover_components
      { enabled := false, excluded_types := [], dcim_models := none }
      { discovered_components :=
          [("widgetbay",
            { name := "widgetbay", model := "WidgetBay",
              template_model := "WidgetBayTemplate",
              component_label := "widget bays", factory_fields := ["id", "name"],
              permissions := ["dcim.view_widgetbay"], special_fields := [],
              custom_queryset_filter := none })],
        discovery_in_progress := false }).1 ≠ [] := by decide

/-- Claim C10, amended: before any discovery result has been cached,
auto-discovery never raises and returns the empty map in each contained
failure mode — the enabled flag is false, discovery is already in progress
(re-entrant call), or locating the host's device-model module fails — and
regardless of what discovery produced, registry lookups keep working for
all nine built-in kinds. -/
theorem auto_discovery_contained (env : DiscoveryEnv) (st : DiscoveryState)
    (hcache : st.discovered_components = []) :
    (st.discovery_in_progress = true → (discover_components env st).1 = [])
    ∧ (env.enabled = false → st.discovery_in_progress = false →
        (discover_components env st).1 = [])
    ∧ (env.dcim_models = none → env.enabled = true →
        st.discovery_in_progress = false → (discover_components env st).1 = [])
    ∧ (∀ (disc : List (String × DiscoveredComponent)),
        ∀ p ∈ COMPONENT_REGISTRY, get_component_config disc p.1 = Except.ok p.2) := by
  refine ⟨?_, ?_, ?_, ?_⟩
  · intro hprog
    simp [discover_components, hcache, hprog]
  · intro hen hprog
    simp [discover_components, hcache, hprog, hen]
  · intro hmod hen hprog
    simp [discover_components, hcache, hprog, hen, hmod]
  · intro disc p hp
    have hall : ∀ q ∈ COMPONENT_REGISTRY,
        COMPONENT_REGISTRY.find? (fun e => e.1 == q.1) = some q := by decide
    exact get_component_config_ok disc p.1 p
      (populate_preserves disc COMPONENT_REGISTRY p.1 p (hall p hp))

/-- Witness for claim C10: with a fresh state and discovery disabled the
result is empty, and the "interface" lookup keeps working for any
discovered map. -/
theorem auto_discovery_contained_witness :
    (([] : List (String × DiscoveredComponent)) = [] ∧ false = false) ∧
      (discover_components
        { enabled := false, excluded_types := [], dcim_models := none }
        { discovered_components := [], discovery_in_progress := false }).1 = [] :=
  ⟨⟨rfl, rfl⟩,
    (auto_discovery_contained
      { enabled := false, excluded_types := [], dcim_models := none }
      { discovered_components := [], discovery_in_progress := false }
      rfl).2.1 rfl rfl⟩

end CompSync
